import Mathlib

/-!
# Verification of `public/javascripts/store.js` (stripe-payments-demo)

A shallow embedding of the `Store` class of `store.js`: products, SKUs,
line items, the quantity map, payment-intent synchronisation, and the
display-formatting helpers.  JavaScript numbers appearing in this file are
integers wherever the program keeps them integral (SKU prices in minor
currency units, quantities), with `NaN` modelled explicitly as `Option.none`.
Network calls are modelled by passing the backend's response (success payload
or rejection message) as an explicit argument; DOM state is an explicit
record.  Fallible code paths (JS exceptions such as a property access on
`undefined`) are modelled with `Option`.
-/

set_option autoImplicit false

namespace StoreJs

/-- A JavaScript number restricted to the integral values this program
manipulates; `none` is `NaN` (the result of `parseInt` on non-numeric input),
and also stands for `undefined` flowing into arithmetic, which yields `NaN`
exactly as `NaN` does. -/
abbrev JSNum := Option Int

/-- JS truthiness of a number: `0`, `-0` and `NaN` are falsy. -/
def jsTruthy : JSNum → Bool
  | none => false
  | some n => n != 0

/-- The JS expression `q ? q : 0` on a number: `NaN` and `0` give `0`. -/
def qOrZero : JSNum → Int
  | none => 0
  | some n => if n = 0 then 0 else n

/-- The JS expression `t ? t : 0` on an integer (already not `NaN`). -/
def intOrZero (n : Int) : Int := if n = 0 then 0 else n

/-- JS multiplication on numbers: `NaN` is absorbing. -/
def jsMul : JSNum → JSNum → JSNum
  | some a, some b => some (a * b)
  | _, _ => none

/-- Association-list lookup modelling a JS object property read:
a missing key is `undefined` (`none`). -/
def alget {α : Type} : List (String × α) → String → Option α
  | [], _ => none
  | (k, v) :: rest, key => if k = key then some v else alget rest key

/-- Association-list update modelling a JS object property write:
overwrite the existing key or append a new one (JS string-keyed objects
preserve insertion order). -/
def alset {α : Type} : List (String × α) → String → α → List (String × α)
  | [], key, v => [(key, v)]
  | (k, w) :: rest, key, v =>
      if k = key then (key, v) :: rest else (k, w) :: alset rest key v

/-- JS `parseInt(s)` (radix 10): skip leading whitespace, read an optional
sign, then the longest prefix of decimal digits; if that prefix is empty the
result is `NaN` (`none`). -/
def parseIntJS (s : String) : JSNum :=
  let cs := s.toList.dropWhile fun c => c = ' ' ∨ c = '\t' ∨ c = '\n' ∨ c = '\r'
  let signAndRest : Int × List Char :=
    match cs with
    | '-' :: rest => (-1, rest)
    | '+' :: rest => (1, rest)
    | _ => (1, cs)
  let digits := signAndRest.2.takeWhile Char.isDigit
  if digits.isEmpty then none
  else some (signAndRest.1 *
    (digits.foldl (fun acc c => acc * 10 + (c.toNat - 48)) (0 : Nat) : Nat))

/-! ## Model of the display formatting environment

`Store.formatPrice` calls `amount.toFixed(2)` and feeds the resulting string
to `Intl.NumberFormat(['en-US'], {style: 'currency', currency,
currencyDisplay: 'symbol'}).format`, which coerces the string back to a
number.  The source comment restricts the program to two-decimal currencies
("assuming a two-decimal currency like EUR or USD for simplicity"), so the
model below covers `en-US` currency formatting for such currencies: the sign,
the currency symbol, the integer digits grouped in threes by commas, and two
fraction digits. -/

/-- `n.toFixed(2)` for an integral JS number `n`. -/
def toFixed2 (amount : Int) : String :=
  (if amount < 0 then "-" else "") ++
    String.mk (Nat.toDigits 10 amount.natAbs) ++ ".00"

/-- Numeric coercion of a `toFixed(2)` string back to a number, performed by
JS when the string is passed to `Intl.NumberFormat.format`.  The fraction
part is always `.00`, so the value is the integer part. -/
def numberOfFixed2 (s : String) : Int :=
  (parseIntJS (String.mk (s.toList.takeWhile fun c => c ≠ '.'))).getD 0

/-- ASCII uppercasing of a string (how `Intl` canonicalises the currency
code). -/
def upperAscii (s : String) : String :=
  String.mk (s.toList.map Char.toUpper)

/-- Whether `pat` occurs as a contiguous run inside the character list. -/
def charsContain (pat : List Char) : List Char → Bool
  | [] => pat.isEmpty
  | c :: rest => pat.isPrefixOf (c :: rest) || charsContain pat rest

/-- JS `s.includes(pat)`. -/
def jsIncludes (s pat : String) : Bool :=
  charsContain pat.toList s.toList

/-- Comma-group a digit list given least-significant first. -/
def commaGroupRev : List Char → List Char
  | [] => []
  | [a] => [a]
  | [a, b] => [a, b]
  | [a, b, c] => [a, b, c]
  | a :: b :: c :: d :: rest => a :: b :: c :: ',' :: commaGroupRev (d :: rest)

/-- The `en-US` currency symbol used by `Intl` for the currency codes the
demo works with (`currencyDisplay: 'symbol'`); other valid codes fall back
to the uppercase code followed by a non-breaking space. -/
def currencySymbol (currency : String) : String :=
  if upperAscii currency = "USD" then "$"
  else if upperAscii currency = "EUR" then "€"
  else upperAscii currency ++ " "

/-- `Intl.NumberFormat(['en-US'], {style: 'currency', currency,
currencyDisplay: 'symbol'}).format` on an integral value of a two-decimal
currency. -/
def intlFormatCurrency (currency : String) (n : Int) : String :=
  (if n < 0 then "-" else "") ++ currencySymbol currency ++
    String.mk (commaGroupRev (Nat.toDigits 10 n.natAbs).reverse).reverse ++
    ".00"

/-- `Store.formatPrice(amount, currency)`: `amount.toFixed(2)` followed by
the `Intl` currency format of the coerced string.  Note the source divides
by nothing: the minor-unit amount itself is formatted. -/
def formatPrice (amount : Int) (currency : String) : String :=
  intlFormatCurrency currency (numberOfFixed2 (toFixed2 amount))

/-! ## Data model -/

/-- A SKU as used by the store: `sku.id`, `sku.price` (minor currency
units), `sku.currency`. -/
structure Sku where
  id : String
  price : Int
  currency : String
  deriving DecidableEq, Repr

/-- The `skus` object attached to a product (`skus.data` is the SKU list). -/
structure SkusObj where
  data : List Sku
  deriving DecidableEq, Repr

/-- A product: `id`, `name`, and the lazily attached `skus` object
(`none` when the catalog response did not embed SKUs). -/
structure Product where
  id : String
  name : String
  skus : Option SkusObj
  deriving DecidableEq, Repr

/-- A line item held in `this.lineItems`: product id, sku id, quantity. -/
structure LineItem where
  product : String
  sku : String
  quantity : JSNum
  deriving DecidableEq, Repr

/-- The `/config` payload. -/
structure Config where
  stripePublishableKey : String
  currency : String
  deriving DecidableEq, Repr

/-- The `/payment_intents` response payload: `paymentIntent` (possibly
absent) and `error` (possibly absent). -/
structure IntentData where
  paymentIntent : Option String
  error : Option String
  deriving DecidableEq, Repr

/-- The mutable state of the `Store` singleton. -/
structure StoreState where
  lineItems : List LineItem
  products : List (String × Product)
  quantity : List (String × JSNum)
  config : Option Config
  productsFetchPromise : Option Nat
  paymentIntent : Option String
  deriving DecidableEq, Repr

/-- `new Store()` before `displayPaymentSummary` has done any work. -/
def initStore : StoreState :=
  { lineItems := []
    products := []
    quantity := []
    config := none
    productsFetchPromise := none
    paymentIntent := none }

/-- `this.products[pid].skus.data[0].price`, `none` when any step would be a
TypeError in JS (missing product, `skus` not yet attached, empty SKU list). -/
def firstSkuPrice (s : StoreState) (pid : String) : Option Int := do
  let p ← alget s.products pid
  let skus ← p.skus
  let sku ← skus.data.head?
  pure sku.price

/-- `Store.getPaymentTotal()`: reduce over the line items of
`total + (quantity ? quantity : 0) * this.products[product].skus.data[0].price`
starting from `0`; `none` models the TypeError raised when a product lookup
or SKU access fails. -/
def getPaymentTotal (s : StoreState) : Option Int :=
  s.lineItems.foldl
    (fun total item =>
      match total, firstSkuPrice s item.product with
      | some t, some price => some (t + qOrZero item.quantity * price)
      | _, _ => none)
    (some 0)

/-! ## Network and DOM environment -/

/-- Outcome of one `fetch` (plus `response.json()`): a parsed payload, or a
rejection whose message the surrounding `catch (err)` sees as
`err.message`. -/
inductive NetResponse (α : Type) where
  | ok (val : α)
  | reject (msg : String)
  deriving DecidableEq, Repr

/-- What an async operation of the controller returns to its caller:
a payload, the `{error: message}` object, or `undefined` (a bare
`return;` or falling off the end of the function). -/
inductive OpReturn (α : Type) where
  | value (v : α)
  | errorObj (msg : String)
  | undefined
  deriving DecidableEq, Repr

/-- Whether an operation's return value is an `{error: message}` object. -/
def OpReturn.isErrorObj {α : Type} : OpReturn α → Bool
  | .errorObj _ => true
  | _ => false

/-- A line item in the API shape produced by `getLineItems`:
`{type: 'sku', parent, quantity}`. -/
structure ApiItem where
  type : String
  parent : String
  quantity : JSNum
  deriving DecidableEq, Repr

/-- A request to the payment-intent endpoints: `POST /payment_intents`
(creation) or `POST /payment_intents/:id/shipping_change` (update). -/
inductive IntentRequest where
  | createIntent (currency : String) (items : List ApiItem)
  | shippingChange (paymentIntent : String) (shippingOption : String)
      (items : List ApiItem)
  deriving DecidableEq, Repr

/-- The body sent to `POST /charges`. -/
structure ChargeRequest where
  source : String
  amount : Int
  currency : String
  metadata : String
  deriving DecidableEq, Repr

/-- Count of fetches issued to the catalog endpoints: `GET /products` and
`GET /products/:id/skus` (one entry per fetched product id). -/
structure FetchLog where
  productsFetches : Nat
  skuFetches : List String
  deriving DecidableEq, Repr

/-- The DOM nodes the controller reads or writes: the per-product quantity
inputs and price texts (keyed by element id), the order subtotal/total
texts, the submit-button label, and the demo notice visibility. -/
structure Dom where
  inputs : List (String × String)
  prices : List (String × String)
  subtotalText : String
  totalText : String
  buttonLabel : String
  demoNoticeHidden : Bool
  deriving DecidableEq, Repr

/-! ## Operations -/

/-- `Store.getLineItems()`: project the stored line items into the API
shape `{type: 'sku', parent, quantity}`. -/
def getLineItems (s : StoreState) : List ApiItem :=
  s.lineItems.map fun item => ⟨"sku", item.sku, item.quantity⟩

/-- `Store.getConfig()`: on success stores the config (after hiding the demo
notice when the publishable key contains `live`); a rejected fetch is caught
and turned into `{error: err.message}`. -/
def getConfig (s : StoreState) (d : Dom) (resp : NetResponse Config) :
    StoreState × Dom × OpReturn Config :=
  match resp with
  | .reject msg => (s, d, .errorObj msg)
  | .ok config =>
      let d := if jsIncludes config.stripePublishableKey "live" then
          { d with demoNoticeHidden := true }
        else d
      ({ s with config := some config }, d, .value config)

/-- `Store.loadSkus(product_id)`: fetch the SKUs and attach them to the
product; a rejected fetch (or the TypeError of writing to a missing product)
is caught and turned into `{error: err.message}`; the success path returns
`undefined`.  The fetch is recorded in the log before the response is
examined. -/
def loadSkus (s : StoreState) (product_id : String) (resp : NetResponse SkusObj)
    (log : FetchLog) : StoreState × OpReturn Unit × FetchLog :=
  let log := { log with skuFetches := log.skuFetches ++ [product_id] }
  match resp with
  | .reject msg => (s, .errorObj msg, log)
  | .ok skus =>
      match alget s.products product_id with
      | none => (s, .errorObj "Cannot set properties of undefined", log)
      | some p =>
          ({ s with products := alset s.products product_id { p with skus := some skus } },
           .undefined, log)

/-- `Store.loadProducts()`, synchronous part: when no memoized promise
exists, create one — the executor runs immediately, so the `GET /products`
fetch is issued at creation time — and store it; otherwise return the
existing promise untouched.  The returned `Nat` is the promise returned to
the caller. -/
def loadProducts (s : StoreState) (log : FetchLog) :
    StoreState × FetchLog × Nat :=
  match s.productsFetchPromise with
  | some p => (s, log, p)
  | none =>
      ({ s with productsFetchPromise := some log.productsFetches },
       { log with productsFetches := log.productsFetches + 1 },
       log.productsFetches)

/-- The loop body of `loadProducts`: store each product, initialise its
quantity to `0`, and when the catalog response carried no `skus`, await
`loadSkus` (whose returned error object, if any, is discarded). -/
def loadProductsLoop (skuResp : String → NetResponse SkusObj) :
    List Product → StoreState → FetchLog → StoreState × FetchLog
  | [], s, log => (s, log)
  | p :: rest, s, log =>
      let s := { s with
        products := alset s.products p.id p
        quantity := alset s.quantity p.id (some 0) }
      match p.skus with
      | some _ => loadProductsLoop skuResp rest s log
      | none =>
          let (s, _ignored, log) := loadSkus s p.id (skuResp p.id) log
          loadProductsLoop skuResp rest s log

/-- How the promise created by `loadProducts` ends up. -/
inductive LoadOutcome where
  | settled (s : StoreState)
  | neverSettles
  deriving DecidableEq, Repr

/-- The asynchronous body of the promise created by `loadProducts`: the
executor has no catch, so a rejected `GET /products` — and likewise the
`throw` on an empty catalog — leaves the promise forever unsettled (the
exception only rejects the async executor's own implicit promise, which
nobody observes). -/
def loadProductsBody (s : StoreState) (productsResp : NetResponse (List Product))
    (skuResp : String → NetResponse SkusObj) (log : FetchLog) :
    LoadOutcome × FetchLog :=
  match productsResp with
  | .reject _ => (.neverSettles, log)
  | .ok products =>
      if products.isEmpty then (.neverSettles, log)
      else
        let (s, log) := loadProductsLoop skuResp products s log
        (.settled s, log)

/-- `Store.createPaymentIntent(currency, items)`: return `undefined` without
any fetch when every item's quantity is falsy; otherwise POST the intent,
store `data.paymentIntent` on the singleton as soon as the payload parses,
and return the payload or its `{error}`; a rejected fetch is caught and
turned into `{error: err.message}`. -/
def createPaymentIntent (s : StoreState) (currency : String)
    (items : List ApiItem) (resp : NetResponse IntentData) :
    StoreState × OpReturn IntentData × List IntentRequest :=
  if items.all fun i => !jsTruthy i.quantity then
    (s, .undefined, [])
  else
    match resp with
    | .reject msg => (s, .errorObj msg, [.createIntent currency items])
    | .ok data =>
        let s := { s with paymentIntent := data.paymentIntent }
        match data.error with
        | some e => (s, .errorObj e, [.createIntent currency items])
        | none => (s, .value data, [.createIntent currency items])

/-- `Store.updatePaymentIntentWithShippingCost(paymentIntent, items,
shippingOption)`: POST the shipping change and return the payload or its
`{error}`; a rejected fetch is caught and turned into
`{error: err.message}`. -/
def updatePaymentIntentWithShippingCost (paymentIntent : String)
    (items : List ApiItem) (shippingOption : String)
    (resp : NetResponse IntentData) : OpReturn IntentData × List IntentRequest :=
  match resp with
  | .reject msg =>
      (.errorObj msg, [.shippingChange paymentIntent shippingOption items])
  | .ok data =>
      match data.error with
      | some e => (.errorObj e, [.shippingChange paymentIntent shippingOption items])
      | none => (.value data, [.shippingChange paymentIntent shippingOption items])

/-- `Store.createCharge(token, metadata)`: `this.getPaymentTotal()` runs
before the `try`, so its exception propagates (outer `none`); inside the
`try`, a null config or a rejected fetch lands in the `catch`, which only
logs and returns `undefined`. -/
def createCharge (s : StoreState) (token : String) (metadata : String)
    (resp : NetResponse String) : Option (OpReturn String × List ChargeRequest) :=
  match getPaymentTotal s with
  | none => none
  | some amount =>
      some (match s.config with
        | none => (.undefined, [])
        | some cfg =>
            let req : ChargeRequest := ⟨token, amount, cfg.currency, metadata⟩
            match resp with
            | .reject _ => (.undefined, [req])
            | .ok data => (.value data, [req]))

/-! ## Rendering and quantity updates -/

/-- Write `innerText` of the `price-{id}` element; a missing element is a
null dereference (`none`). -/
def setPriceText (d : Dom) (id : String) (text : String) : Option Dom :=
  match alget d.prices ("price-" ++ id) with
  | some _ => some { d with prices := alset d.prices ("price-" ++ id) text }
  | none => none

/-- `Store.updateButtonLabel(amount)`: set the submit button's text to
`Pay {amount}`. -/
def updateButtonLabel (d : Dom) (amount : String) : Dom :=
  { d with buttonLabel := "Pay " ++ amount }

/-- `Store.rerenderTotal(currency)`: recompute `getPaymentTotal()`, format
`paymentTotal ? paymentTotal : 0`, write it to both the subtotal and total
texts, and return the display string.  An undefined `currency` makes
`Intl.NumberFormat` throw, and a failing `getPaymentTotal` throws; both are
`none`. -/
def rerenderTotal (s : StoreState) (d : Dom) (currency : Option String) :
    Option (Dom × String) := do
  let paymentTotal ← getPaymentTotal s
  let c ← currency
  let displayTotal := formatPrice (intOrZero paymentTotal) c
  pure ({ d with subtotalText := displayTotal, totalText := displayTotal },
    displayTotal)

/-- The per-product loop of `Store.updateTotal()`: write each line's
`price-{id}` text to the formatted `sku.price * quantity` (with the
`itemTotal ? itemTotal : 0` guard), remembering the last SKU's currency. -/
def updateItemPrices (s : StoreState) :
    List (String × Product) → Dom → Option String → Option (Dom × Option String)
  | [], d, currency => some (d, currency)
  | (id, product) :: rest, d, _ => do
      let skus ← product.skus
      let sku ← skus.data.head?
      let quantity : JSNum := (alget s.quantity id).join
      let itemTotal := jsMul (some sku.price) quantity
      let d ← setPriceText d id (formatPrice (qOrZero itemTotal) sku.currency)
      updateItemPrices s rest d (some sku.currency)

/-- `Store.updateTotal()`: refresh every line's price text, rerender the
order total, and relabel the submit button with the displayed total. -/
def updateTotal (s : StoreState) (d : Dom) : Option (Dom × String) := do
  let (d, currency) ← updateItemPrices s s.products d none
  let (d, displayedTotal) ← rerenderTotal s d currency
  pure (updateButtonLabel d displayedTotal, displayedTotal)

/-- The `this.lineItems.find(item => item.product === id)` mutation of
`updateQuantity`: set the first matching line item's quantity (to the raw
`parseInt` result), leave the list unchanged when no item matches. -/
def setLineItemQuantity : List LineItem → String → JSNum → List LineItem
  | [], _, _ => []
  | it :: rest, id, q =>
      if it.product = id then { it with quantity := q } :: rest
      else it :: setLineItemQuantity rest id q

/-- Lines 212–217 of `updateQuantity`: `parseInt` the input value, store
`quantity ? quantity : 0` in the quantity map, and store the raw `parseInt`
result (possibly `NaN`) on the matching line item. -/
def midState (s : StoreState) (id value : String) : StoreState :=
  let quantity := parseIntJS value
  { s with
    quantity := alset s.quantity id (some (qOrZero quantity))
    lineItems := setLineItemQuantity s.lineItems id quantity }

/-- `Store.updateQuantity(id)`: read and `parseInt` the quantity input,
update the quantity map and the matching line item (`midState`), refresh
the displayed totals, and fire
`createPaymentIntent(this.config.currency, this.getLineItems())`.
A missing input element or a still-null config throws (`none`). -/
def updateQuantity (s : StoreState) (d : Dom) (id : String)
    (resp : NetResponse IntentData) :
    Option (StoreState × Dom × List IntentRequest) := do
  let value ← alget d.inputs ("quantity-input-" ++ id)
  let s := midState s id value
  let (d, _displayedTotal) ← updateTotal s d
  let cfg ← s.config
  let (s, _result, reqs) := createPaymentIntent s cfg.currency (getLineItems s) resp
  pure (s, d, reqs)

/-! ## Initial payment summary -/

/-- A JS value interpolated into a template string: a number prints its
digits, `NaN` prints `NaN`, a missing property prints `undefined`. -/
def jsNumDisplay : Option JSNum → String
  | none => "undefined"
  | some none => "NaN"
  | some (some n) => toString n

/-- `formatPrice` on a possibly-`NaN` amount: `Intl` renders `NaN` as the
symbol followed by `NaN`. -/
def formatPriceNum (amount : JSNum) (currency : String) : String :=
  match amount with
  | some n => formatPrice n currency
  | none => currencySymbol currency ++ "NaN"

/-- The per-product loop of `Store.displayPaymentSummary()`: create each
line's DOM nodes (quantity input showing `this.quantity[product.id]`, price
text showing `sku.price * quantity`), push the line item, and remember the
last SKU's currency. -/
def summaryLoop :
    List (String × Product) → StoreState → Dom → Option String →
      Option (StoreState × Dom × Option String)
  | [], s, d, currency => some (s, d, currency)
  | (id, product) :: rest, s, d, _ => do
      let skus ← product.skus
      let sku ← skus.data.head?
      let quantity : JSNum := (alget s.quantity id).join
      let lineItemPrice := formatPriceNum (jsMul (some sku.price) quantity) sku.currency
      let d := { d with
        inputs := alset d.inputs ("quantity-input-" ++ product.id)
          (jsNumDisplay (alget s.quantity product.id))
        prices := alset d.prices ("price-" ++ product.id) lineItemPrice }
      let s := { s with lineItems := s.lineItems ++ [⟨product.id, sku.id, quantity⟩] }
      summaryLoop rest s d (some sku.currency)

/-- `Store.displayPaymentSummary()` after its `await this.loadProducts()`:
build the line items and their DOM nodes, then rerender the order total
with the last line's currency. -/
def displayPaymentSummary (s : StoreState) (d : Dom) :
    Option (StoreState × Dom) := do
  let (s, d, currency) ← summaryLoop s.products s d none
  let (d, _displayTotal) ← rerenderTotal s d currency
  pure (s, d)

/-! ## Concrete demo data (one product, one SKU at 1000 minor units, usd) -/

/-- The single-product catalog of the end-to-end scenario. -/
def oneProductCatalog : List Product :=
  [⟨"prod_1", "Demo product", some ⟨[⟨"sku_1", 1000, "usd"⟩]⟩⟩]

/-- A test-mode `/config` payload with currency `usd`. -/
def cfgUsd : Config := ⟨"pk_test_abc", "usd"⟩

/-- A DOM with no product nodes yet. -/
def emptyDom : Dom := ⟨[], [], "", "", "", false⟩

/-- The store right after the `loadProducts` promise has settled on
`oneProductCatalog`. -/
def bootState : StoreState :=
  { lineItems := []
    products := [("prod_1", ⟨"prod_1", "Demo product", some ⟨[⟨"sku_1", 1000, "usd"⟩]⟩⟩)]
    quantity := [("prod_1", some 0)]
    config := none
    productsFetchPromise := some 0
    paymentIntent := none }

/-- `bootState` after `getConfig` stored `cfgUsd` and
`displayPaymentSummary` built the line items. -/
def readyState : StoreState :=
  { bootState with
    lineItems := [⟨"prod_1", "sku_1", some 0⟩]
    config := some cfgUsd }

/-- The DOM `displayPaymentSummary` leaves behind for `readyState`. -/
def readyDom : Dom :=
  ⟨[("quantity-input-prod_1", "0")], [("price-prod_1", "$0.00")],
   "$0.00", "$0.00", "", false⟩

/-- `readyDom` after the user types `3` into the quantity input. -/
def dom3 : Dom := { readyDom with inputs := [("quantity-input-prod_1", "3")] }

/-- `readyState` after `updateQuantity` ran with input `3` and the backend
answered the intent creation with `pi_123`. -/
def chargedState : StoreState :=
  { readyState with
    lineItems := [⟨"prod_1", "sku_1", some 3⟩]
    quantity := [("prod_1", some 3)]
    paymentIntent := some "pi_123" }

/-- The DOM after that quantity-3 update. -/
def chargedDom : Dom :=
  ⟨[("quantity-input-prod_1", "3")], [("price-prod_1", "$3,000.00")],
   "$3,000.00", "$3,000.00", "Pay $3,000.00", false⟩

/-! ## Association-list lemmas -/

theorem alget_alset_self {α : Type} (m : List (String × α)) (k : String) (v : α) :
    alget (alset m k v) k = some v := by
  induction m with
  | nil => simp [alset, alget]
  | cons p rest ih =>
      by_cases hk : p.1 = k
      · simp [alset, alget, hk]
      · simp [alset, alget, hk, ih]

theorem mem_alset {α : Type} {m : List (String × α)} {k : String} {v : α}
    {p : String × α} (h : p ∈ alset m k v) : p ∈ m ∨ p = (k, v) := by
  induction m with
  | nil => simpa [alset] using h
  | cons q rest ih =>
      by_cases hk : q.1 = k
      · simp only [alset, hk, if_pos rfl] at h
        rcases List.mem_cons.mp h with h | h
        · right; exact h
        · left; exact List.mem_cons_of_mem _ h
      · simp only [alset, if_neg hk] at h
        rcases List.mem_cons.mp h with h | h
        · left; simp [h]
        · rcases ih h with h | h
          · left; exact List.mem_cons_of_mem _ h
          · right; exact h

/-! ## C1: the payment total -/

theorem getPaymentTotal_go (s : StoreState) (items : List LineItem) (t : Int)
    (h : ∀ it ∈ items, (firstSkuPrice s it.product).isSome) :
    items.foldl (fun total item =>
        match total, firstSkuPrice s item.product with
        | some t, some price => some (t + qOrZero item.quantity * price)
        | _, _ => none) (some t) =
      some (t + (items.map fun it =>
        qOrZero it.quantity * (firstSkuPrice s it.product).getD 0).sum) := by
  induction items generalizing t with
  | nil => simp
  | cons it rest ih =>
      obtain ⟨price, hp⟩ := Option.isSome_iff_exists.mp (h it (by simp))
      have hrest : ∀ x ∈ rest, (firstSkuPrice s x.product).isSome := by
        intro x hx; exact h x (by simp [hx])
      simp only [List.foldl_cons, hp, List.map_cons, List.sum_cons]
      rw [ih _ hrest]
      simp [hp, add_assoc]

/-- C1: for every catalog and quantity state in which each line item's
product resolves to a product with at least one SKU, `getPaymentTotal`
returns the sum over the line items of quantity times the first SKU's
price (in minor currency units), and a line item with quantity zero
contributes zero to that sum. -/
theorem getPaymentTotal_sums_lineItems (s : StoreState)
    (h : ∀ it ∈ s.lineItems, (firstSkuPrice s it.product).isSome) :
    getPaymentTotal s =
      some ((s.lineItems.map fun it =>
        qOrZero it.quantity * (firstSkuPrice s it.product).getD 0).sum) ∧
    ∀ it ∈ s.lineItems, it.quantity = some 0 →
      qOrZero it.quantity * (firstSkuPrice s it.product).getD 0 = 0 := by
  constructor
  · have := getPaymentTotal_go s s.lineItems 0 h
    simpa [getPaymentTotal] using this
  · intro it _ hq
    simp [hq, qOrZero]

theorem getPaymentTotal_sums_lineItems_witness :
    getPaymentTotal chargedState =
      some ((chargedState.lineItems.map fun it =>
        qOrZero it.quantity * (firstSkuPrice chargedState it.product).getD 0).sum) ∧
    ∀ it ∈ chargedState.lineItems, it.quantity = some 0 →
      qOrZero it.quantity * (firstSkuPrice chargedState it.product).getD 0 = 0 :=
  getPaymentTotal_sums_lineItems chargedState (by decide)

/-! ## C6: memoized catalog load -/

/-- C6: starting with no memoized promise, the first `loadProducts` call
issues exactly one `GET /products` fetch (and no SKU fetch) while
registering the promise; a second call made while that promise is the
stored one returns the very same promise, issues no fetch of any kind, and
leaves the store unchanged. -/
theorem loadProducts_memoized (s : StoreState) (log : FetchLog)
    (h : s.productsFetchPromise = none) :
    ((loadProducts s log).2.1.productsFetches = log.productsFetches + 1 ∧
     (loadProducts s log).2.1.skuFetches = log.skuFetches) ∧
    loadProducts (loadProducts s log).1 (loadProducts s log).2.1 =
      ((loadProducts s log).1, (loadProducts s log).2.1,
       (loadProducts s log).2.2) := by
  simp [loadProducts, h]

theorem loadProducts_memoized_witness :
    ((loadProducts initStore ⟨0, []⟩).2.1.productsFetches = 0 + 1 ∧
     (loadProducts initStore ⟨0, []⟩).2.1.skuFetches = []) ∧
    loadProducts (loadProducts initStore ⟨0, []⟩).1
        (loadProducts initStore ⟨0, []⟩).2.1 =
      ((loadProducts initStore ⟨0, []⟩).1,
       (loadProducts initStore ⟨0, []⟩).2.1,
       (loadProducts initStore ⟨0, []⟩).2.2) :=
  loadProducts_memoized initStore ⟨0, []⟩ rfl

/-! ## C7: all-zero quantities short-circuit the intent sync -/

/-- C7: when every line item passed to `createPaymentIntent` has quantity
zero, the call returns `undefined` without issuing any network request and
with the store — the payment-intent reference included — unchanged. -/
theorem createPaymentIntent_allZero (s : StoreState) (currency : String)
    (items : List ApiItem) (resp : NetResponse IntentData)
    (h : ∀ i ∈ items, i.quantity = some 0) :
    createPaymentIntent s currency items resp = (s, .undefined, []) := by
  have hall : (items.all fun i => !jsTruthy i.quantity) = true := by
    rw [List.all_eq_true]
    intro i hi
    rw [h i hi]
    rfl
  simp [createPaymentIntent, hall]

theorem createPaymentIntent_allZero_witness :
    createPaymentIntent chargedState "usd" [⟨"sku", "sku_1", some 0⟩]
        (.reject "unreached") = (chargedState, .undefined, []) :=
  createPaymentIntent_allZero chargedState "usd" [⟨"sku", "sku_1", some 0⟩]
    (.reject "unreached") (by decide)

/-! ## C10: state mutation on a backend-reported intent error -/

/-- C10: when the backend's intent-creation payload carries an `error`
field (and the items were not all zero), `createPaymentIntent` overwrites
the stored payment-intent reference with the payload's `paymentIntent`
field — possibly absent — before returning the `{error}` result. -/
theorem createPaymentIntent_error_overwrites (s : StoreState)
    (currency : String) (items : List ApiItem) (data : IntentData) (e : String)
    (hq : ¬ (items.all fun i => !jsTruthy i.quantity) = true)
    (he : data.error = some e) :
    createPaymentIntent s currency items (.ok data) =
      ({ s with paymentIntent := data.paymentIntent }, .errorObj e,
       [.createIntent currency items]) := by
  simp [createPaymentIntent, hq, he]

theorem createPaymentIntent_error_overwrites_witness :
    createPaymentIntent chargedState "usd" [⟨"sku", "sku_1", some 2⟩]
        (.ok ⟨none, some "card_declined"⟩) =
      ({ chargedState with paymentIntent := none },
       .errorObj "card_declined",
       [.createIntent "usd" [⟨"sku", "sku_1", some 2⟩]]) :=
  createPaymentIntent_error_overwrites chargedState "usd"
    [⟨"sku", "sku_1", some 2⟩] ⟨none, some "card_declined"⟩ "card_declined"
    (by decide) rfl

/-! ## C2: the end-to-end quantity-3 scenario -/

/-- C2: in the one-product catalog (single SKU priced 1000 minor units,
currency `usd`), the full pipeline — catalog load, config, payment summary,
then typing `3` — yields `getPaymentTotal = 3000`; but the display the code
produces for that total is `$3,000.00`, not the `$30.00` the specification
states: `formatPrice` formats the minor-unit amount without dividing by
100. -/
theorem quantity3_total_3000_display_wrong :
    (loadProductsBody (loadProducts initStore ⟨0, []⟩).1 (.ok oneProductCatalog)
        (fun _ => .reject "unused") (loadProducts initStore ⟨0, []⟩).2.1).1 =
      .settled bootState ∧
    getConfig bootState emptyDom (.ok cfgUsd) =
      ({ bootState with config := some cfgUsd }, emptyDom, .value cfgUsd) ∧
    displayPaymentSummary { bootState with config := some cfgUsd } emptyDom =
      some (readyState, readyDom) ∧
    updateQuantity readyState dom3 "prod_1" (.ok ⟨some "pi_123", none⟩) =
      some (chargedState, chargedDom,
        [.createIntent "usd" [⟨"sku", "sku_1", some 3⟩]]) ∧
    getPaymentTotal chargedState = some 3000 ∧
    chargedDom.totalText = formatPrice 3000 "usd" ∧
    formatPrice 3000 "usd" = "$3,000.00" ∧
    formatPrice 3000 "usd" ≠ "$30.00" := by
  decide

/-! ## C3: quantity edits always hit the creation endpoint -/

/-- `chargedDom` after the user changes the input to `2`. -/
def dom2 : Dom := { chargedDom with inputs := [("quantity-input-prod_1", "2")] }

/-- C3 counterexample: in a reachable state whose payment-intent reference
already exists (`pi_123`), a further quantity edit issues a second
intent-creation request (`POST /payment_intents`) instead of updating the
existing intent. -/
theorem updateQuantity_second_creation :
    chargedState.paymentIntent = some "pi_123" ∧
    (updateQuantity chargedState dom2 "prod_1" (.ok ⟨some "pi_456", none⟩)).map
        (fun r => r.2.2) =
      some [.createIntent "usd" [⟨"sku", "sku_1", some 2⟩]] := by
  decide

/-! ## C4: error results of the network operations -/

/-- C4 counterexample: a rejected `POST /charges` does not produce an
`{error: message}` result — `createCharge` merely logs and returns
`undefined`. -/
theorem createCharge_reject_returns_undefined :
    (createCharge chargedState "tok_visa" "order" (.reject "Failed to fetch")).map
        (fun r => r.1) = some .undefined ∧
    (OpReturn.isErrorObj (OpReturn.undefined (α := String))) = false := by
  decide

/-! ## C5 and C8 counterexample DOMs -/

/-- `readyDom` after the user types the non-numeric `abc`. -/
def domAbc : Dom := { readyDom with inputs := [("quantity-input-prod_1", "abc")] }

/-- `readyDom` after the user types `-5`. -/
def domNeg5 : Dom := { readyDom with inputs := [("quantity-input-prod_1", "-5")] }

/-- C5 counterexample: after `updateQuantity` on the non-numeric input
`abc`, the quantity map holds `0` but the line item's quantity field holds
`NaN` (the raw `parseInt` result), not `0`. -/
theorem updateQuantity_nonnumeric_lineItem_NaN :
    (updateQuantity readyState domAbc "prod_1" (.reject "unused")).map
        (fun r => (alget r.1.quantity "prod_1", r.1.lineItems)) =
      some (some (some 0), [⟨"prod_1", "sku_1", none⟩]) ∧
    (none : JSNum) ≠ some 0 := by
  decide

/-- C8 counterexample: the raw input `-5` is stored as `-5` in the quantity
map — a negative value in a reachable state, refuting the non-negativity
invariant. -/
theorem updateQuantity_stores_negative :
    (updateQuantity readyState domNeg5 "prod_1" (.ok ⟨some "pi_9", none⟩)).map
        (fun r => alget r.1.quantity "prod_1") = some (some (some (-5))) ∧
    (-5 : Int) < 0 := by
  decide

/-! ## Inversion and frame lemmas -/

theorem updateQuantity_inv {s : StoreState} {d : Dom} {id : String}
    {resp : NetResponse IntentData} {s' : StoreState} {d' : Dom}
    {reqs : List IntentRequest}
    (h : updateQuantity s d id resp = some (s', d', reqs)) :
    ∃ raw cfg disp r,
      alget d.inputs ("quantity-input-" ++ id) = some raw ∧
      s.config = some cfg ∧
      updateTotal (midState s id raw) d = some (d', disp) ∧
      createPaymentIntent (midState s id raw) cfg.currency
        (getLineItems (midState s id raw)) resp = (s', r, reqs) := by
  unfold updateQuantity at h
  cases hval : alget d.inputs ("quantity-input-" ++ id) with
  | none => rw [hval] at h; exact absurd h (by simp)
  | some raw =>
      rw [hval] at h
      simp only [Option.bind_eq_bind', Option.some_bind'] at h
      cases hut : updateTotal (midState s id raw) d with
      | none => rw [hut] at h; exact absurd h (by simp)
      | some pr =>
          obtain ⟨d2, disp⟩ := pr
          rw [hut] at h
          simp only [Option.some_bind'] at h
          cases hcfg : s.config with
          | none =>
              rw [show (midState s id raw).config = none from hcfg] at h
              exact absurd h (by simp)
          | some cfg =>
              rw [show (midState s id raw).config = some cfg from hcfg] at h
              simp only [Option.some_bind'] at h
              rcases hcp : createPaymentIntent (midState s id raw) cfg.currency
                  (getLineItems (midState s id raw)) resp with ⟨sN, rN, reqsN⟩
              rw [hcp] at h
              simp only [Option.pure_def, Option.some.injEq, Prod.mk.injEq] at h
              obtain ⟨hs, hd, hr⟩ := h
              exact ⟨raw, cfg, disp, rN, rfl, rfl,
                by rw [hut, hd], by rw [hcp, hs, hr]⟩

theorem createPaymentIntent_fst (s : StoreState) (cur : String)
    (items : List ApiItem) (resp : NetResponse IntentData) :
    ∃ pi, (createPaymentIntent s cur items resp).1 =
      { s with paymentIntent := pi } := by
  unfold createPaymentIntent
  split
  · exact ⟨s.paymentIntent, rfl⟩
  · cases resp with
    | reject msg => exact ⟨s.paymentIntent, rfl⟩
    | ok data =>
        rcases data with ⟨dpi, derr⟩
        cases derr <;> exact ⟨dpi, rfl⟩

theorem createPaymentIntent_reqs (s : StoreState) (cur : String)
    (items : List ApiItem) (resp : NetResponse IntentData) :
    (createPaymentIntent s cur items resp).2.2 =
      if items.all (fun i => !jsTruthy i.quantity) then []
      else [.createIntent cur items] := by
  unfold createPaymentIntent
  by_cases hq : (items.all fun i => !jsTruthy i.quantity) = true
  · simp [hq]
  · cases resp with
    | reject msg => simp [hq]
    | ok data =>
        rcases data with ⟨dpi, derr⟩
        cases derr <;> simp [hq]

theorem getPaymentTotal_set_paymentIntent (s : StoreState) (pi : Option String) :
    getPaymentTotal { s with paymentIntent := pi } = getPaymentTotal s := rfl

theorem getLineItems_set_paymentIntent (s : StoreState) (pi : Option String) :
    getLineItems { s with paymentIntent := pi } = getLineItems s := rfl

/-! ## C3 amended: every quantity edit hits the creation endpoint -/

/-- `readyState` after the quantity-2 edit (intent `pi_456` returned). -/
def twoState : StoreState :=
  { readyState with
    lineItems := [⟨"prod_1", "sku_1", some 2⟩]
    quantity := [("prod_1", some 2)]
    paymentIntent := some "pi_456" }

/-- The DOM after the quantity-2 edit. -/
def twoDom : Dom :=
  ⟨[("quantity-input-prod_1", "2")], [("price-prod_1", "$2,000.00")],
   "$2,000.00", "$2,000.00", "Pay $2,000.00", false⟩

/-- C3 amended: a successful `updateQuantity` never issues a
shipping-change (update) request; whenever the resulting line items are not
all of falsy quantity it issues exactly one intent-creation request — with
no regard to whether an intent reference already exists. -/
theorem updateQuantity_only_creation_requests (s : StoreState) (d : Dom)
    (id : String) (resp : NetResponse IntentData) (s' : StoreState) (d' : Dom)
    (reqs : List IntentRequest)
    (h : updateQuantity s d id resp = some (s', d', reqs)) :
    (∀ pi so items, IntentRequest.shippingChange pi so items ∉ reqs) ∧
    (¬ ((getLineItems s').all fun i => !jsTruthy i.quantity) = true →
      ∃ cur, reqs = [IntentRequest.createIntent cur (getLineItems s')]) := by
  obtain ⟨raw, cfg, disp, r, hval, hcfg, hut, hcp⟩ := updateQuantity_inv h
  obtain ⟨pi, hpi⟩ := createPaymentIntent_fst (midState s id raw) cfg.currency
    (getLineItems (midState s id raw)) resp
  have hs' : s' = { midState s id raw with paymentIntent := pi } := by
    rw [← hpi, hcp]
  have hls : getLineItems s' = getLineItems (midState s id raw) := by
    rw [hs']; rfl
  have hreqs : reqs =
      if ((getLineItems (midState s id raw)).all fun i => !jsTruthy i.quantity)
      then [] else [.createIntent cfg.currency (getLineItems (midState s id raw))] := by
    have hr := createPaymentIntent_reqs (midState s id raw) cfg.currency
      (getLineItems (midState s id raw)) resp
    rw [hcp] at hr
    exact hr
  constructor
  · intro pi' so items hmem
    rw [hreqs] at hmem
    split at hmem
    · simp at hmem
    · simp at hmem
  · intro hnq
    rw [hls] at hnq
    refine ⟨cfg.currency, ?_⟩
    rw [hreqs, if_neg hnq, hls]

theorem updateQuantity_only_creation_requests_witness :
    (∀ pi so items, IntentRequest.shippingChange pi so items ∉
        [IntentRequest.createIntent "usd" [⟨"sku", "sku_1", some 2⟩]]) ∧
    (¬ ((getLineItems twoState).all fun i => !jsTruthy i.quantity) = true →
      ∃ cur, [IntentRequest.createIntent "usd" [⟨"sku", "sku_1", some 2⟩]] =
        [IntentRequest.createIntent cur (getLineItems twoState)]) :=
  updateQuantity_only_creation_requests chargedState dom2 "prod_1"
    (.ok ⟨some "pi_456", none⟩) twoState twoDom
    [.createIntent "usd" [⟨"sku", "sku_1", some 2⟩]] (by decide)

/-! ## C5 amended: non-numeric input, map vs line item -/

theorem setLineItemQuantity_mem_of_any (l : List LineItem) (id : String) (q : JSNum)
    (h : (l.any fun it => it.product == id) = true) :
    ∃ it ∈ setLineItemQuantity l id q, it.product = id ∧ it.quantity = q := by
  induction l with
  | nil => simp at h
  | cons it rest ih =>
      by_cases hp : it.product = id
      · exact ⟨{ it with quantity := q }, by simp [setLineItemQuantity, hp], hp, rfl⟩
      · have h' : (rest.any fun it => it.product == id) = true := by
          simpa [List.any_cons, hp] using h
        obtain ⟨jt, hmem, hj⟩ := ih h'
        refine ⟨jt, ?_, hj⟩
        simp only [setLineItemQuantity, if_neg hp]
        exact List.mem_cons_of_mem _ hmem

def nanState : StoreState :=
  { readyState with
    lineItems := [⟨"prod_1", "sku_1", none⟩]
    quantity := [("prod_1", some 0)] }

def nanDom : Dom :=
  ⟨[("quantity-input-prod_1", "abc")], [("price-prod_1", "$0.00")],
   "$0.00", "$0.00", "Pay $0.00", false⟩

/-- C5 amended: for non-numeric or empty raw input, `updateQuantity` stores
`0` in the quantity map for the product, but sets the corresponding line
item's quantity field to the raw `parseInt` result — `NaN` — not `0`. -/
theorem updateQuantity_nonnumeric_coerces (s : StoreState) (d : Dom)
    (id raw : String) (resp : NetResponse IntentData) (s' : StoreState)
    (d' : Dom) (reqs : List IntentRequest)
    (hin : alget d.inputs ("quantity-input-" ++ id) = some raw)
    (hraw : parseIntJS raw = none)
    (h : updateQuantity s d id resp = some (s', d', reqs)) :
    alget s'.quantity id = some (some 0) ∧
    s'.lineItems = setLineItemQuantity s.lineItems id none ∧
    ((s.lineItems.any fun it => it.product == id) = true →
      ∃ it ∈ s'.lineItems, it.product = id ∧ it.quantity = none) := by
  obtain ⟨raw', cfg, disp, r, hval, hcfg, hut, hcp⟩ := updateQuantity_inv h
  have hraweq : raw' = raw := Option.some.inj (hval.symm.trans hin)
  subst hraweq
  obtain ⟨pi, hpi⟩ := createPaymentIntent_fst (midState s id raw') cfg.currency
    (getLineItems (midState s id raw')) resp
  have hs' : s' = { midState s id raw' with paymentIntent := pi } := by
    rw [← hpi, hcp]
  have hq : s'.quantity = alset s.quantity id (some 0) := by
    rw [hs']
    show (midState s id raw').quantity = _
    unfold midState
    simp [hraw, qOrZero]
  have hl : s'.lineItems = setLineItemQuantity s.lineItems id none := by
    rw [hs']
    show (midState s id raw').lineItems = _
    unfold midState
    simp [hraw]
  refine ⟨?_, hl, ?_⟩
  · rw [hq]; exact alget_alset_self _ _ _
  · intro hany
    rw [hl]
    exact setLineItemQuantity_mem_of_any s.lineItems id none hany

theorem updateQuantity_nonnumeric_coerces_witness :
    alget nanState.quantity "prod_1" = some (some 0) ∧
    nanState.lineItems = setLineItemQuantity readyState.lineItems "prod_1" none ∧
    ((readyState.lineItems.any fun it => it.product == "prod_1") = true →
      ∃ it ∈ nanState.lineItems, it.product = "prod_1" ∧ it.quantity = none) :=
  updateQuantity_nonnumeric_coerces readyState domAbc "prod_1" "abc"
    (.reject "unused") nanState nanDom [] (by decide) (by decide) (by decide)

/-! ## Catalog-load and quantity-map lemmas -/

theorem alget_alset_ne {α : Type} (m : List (String × α)) (k k' : String)
    (v : α) (h : k' ≠ k) : alget (alset m k v) k' = alget m k' := by
  induction m with
  | nil => simp [alset, alget, Ne.symm h]
  | cons p rest ih =>
      obtain ⟨pk, pv⟩ := p
      by_cases hp : pk = k
      · subst hp
        simp [alset, alget, Ne.symm h]
      · simp only [alset, if_neg hp, alget]
        split
        · rfl
        · exact ih

theorem loadSkus_quantity (s : StoreState) (pid : String)
    (resp : NetResponse SkusObj) (log : FetchLog) :
    (loadSkus s pid resp log).1.quantity = s.quantity := by
  unfold loadSkus
  cases resp with
  | reject msg => rfl
  | ok skus => cases h : alget s.products pid <;> simp [h]

theorem loadProductsLoop_quantity_isSome (skuResp : String → NetResponse SkusObj)
    (ps : List Product) :
    ∀ (s : StoreState) (log : FetchLog),
      (∀ p ∈ s.quantity, p.2.isSome = true) →
      ∀ p ∈ (loadProductsLoop skuResp ps s log).1.quantity, p.2.isSome = true := by
  induction ps with
  | nil => intro s log h; simpa [loadProductsLoop] using h
  | cons pr rest ih =>
      intro s log h
      have hstep : ∀ p ∈ alset s.quantity pr.id (some (0 : Int)), p.2.isSome = true := by
        intro p hp
        rcases mem_alset hp with hp | hp
        · exact h p hp
        · rw [hp]; rfl
      cases hsk : pr.skus with
      | some sk =>
          simp only [loadProductsLoop, hsk]
          exact ih _ _ hstep
      | none =>
          simp only [loadProductsLoop, hsk]
          rcases hls : loadSkus { s with
              products := alset s.products pr.id pr
              quantity := alset s.quantity pr.id (some 0) } pr.id (skuResp pr.id) log
            with ⟨s2, ig, log2⟩
          refine ih _ _ ?_
          have hq2 : s2.quantity = alset s.quantity pr.id (some 0) := by
            have hq := loadSkus_quantity { s with
              products := alset s.products pr.id pr
              quantity := alset s.quantity pr.id (some 0) } pr.id (skuResp pr.id) log
            rw [hls] at hq
            exact hq
          rw [hq2]
          exact hstep

theorem loadProductsLoop_quantity_zero (skuResp : String → NetResponse SkusObj)
    (ps : List Product) :
    ∀ (s : StoreState) (log : FetchLog) (a : String),
      (alget s.quantity a = some (some 0) ∨ a ∈ ps.map Product.id) →
      alget (loadProductsLoop skuResp ps s log).1.quantity a = some (some 0) := by
  induction ps with
  | nil =>
      intro s log a h
      rcases h with h | h
      · simpa [loadProductsLoop] using h
      · simp at h
  | cons pr rest ih =>
      intro s log a h
      have hstep : alget (alset s.quantity pr.id (some (0 : Int))) a = some (some 0) ∨
          a ∈ rest.map Product.id := by
        by_cases ha : a = pr.id
        · subst ha; left; exact alget_alset_self _ _ _
        · rcases h with h | h
          · left; rw [alget_alset_ne _ _ _ _ ha]; exact h
          · rw [List.map_cons, List.mem_cons] at h
            rcases h with h | h
            · exact absurd h ha
            · right; exact h
      cases hsk : pr.skus with
      | some sk =>
          simp only [loadProductsLoop, hsk]
          exact ih _ _ _ hstep
      | none =>
          simp only [loadProductsLoop, hsk]
          rcases hls : loadSkus { s with
              products := alset s.products pr.id pr
              quantity := alset s.quantity pr.id (some 0) } pr.id (skuResp pr.id) log
            with ⟨s2, ig, log2⟩
          refine ih _ _ _ ?_
          have hq2 : s2.quantity = alset s.quantity pr.id (some 0) := by
            have hq := loadSkus_quantity { s with
              products := alset s.products pr.id pr
              quantity := alset s.quantity pr.id (some 0) } pr.id (skuResp pr.id) log
            rw [hls] at hq
            exact hq
          rw [hq2]
          exact hstep

theorem loadProductsBody_settled {s : StoreState}
    {productsResp : NetResponse (List Product)}
    {skuResp : String → NetResponse SkusObj} {log : FetchLog}
    {s' : StoreState} {log' : FetchLog}
    (h : loadProductsBody s productsResp skuResp log = (.settled s', log')) :
    ∃ products, productsResp = .ok products ∧ products ≠ [] ∧
      s' = (loadProductsLoop skuResp products s log).1 := by
  cases productsResp with
  | reject msg => simp [loadProductsBody] at h
  | ok products =>
      simp only [loadProductsBody] at h
      by_cases he : products.isEmpty
      · rw [if_pos he] at h; simp at h
      · rw [if_neg he] at h
        refine ⟨products, rfl, by simpa using he, ?_⟩
        rcases hlp : loadProductsLoop skuResp products s log with ⟨s2, log2⟩
        rw [hlp] at h
        simp only [Prod.mk.injEq, LoadOutcome.settled.injEq] at h
        rw [h.1]

theorem updateQuantity_quantity_eq {s : StoreState} {d : Dom} {id : String}
    {resp : NetResponse IntentData} {s' : StoreState} {d' : Dom}
    {reqs : List IntentRequest}
    (h : updateQuantity s d id resp = some (s', d', reqs)) :
    ∃ raw, alget d.inputs ("quantity-input-" ++ id) = some raw ∧
      s'.quantity = alset s.quantity id (some (qOrZero (parseIntJS raw))) := by
  obtain ⟨raw, cfg, disp, r, hval, hcfg, hut, hcp⟩ := updateQuantity_inv h
  obtain ⟨pi, hpi⟩ := createPaymentIntent_fst (midState s id raw) cfg.currency
    (getLineItems (midState s id raw)) resp
  have hs' : s' = { midState s id raw with paymentIntent := pi } := by
    rw [← hpi, hcp]
  exact ⟨raw, hval, by rw [hs']; rfl⟩

/-! ## C8 amended: quantity-map values are integers -/

/-- C8 amended: every value stored in the quantity map is an integer —
never `NaN` — in every reachable state: the map is empty at construction,
`loadProducts` initialises each loaded product's entry to `0`, and
`updateQuantity` always writes `quantity ? quantity : 0` (an integer, with
non-numeric and empty input coerced to `0`).  Negative inputs, however, are
stored as-is. -/
theorem quantity_map_integer_values :
    (∀ p ∈ initStore.quantity, p.2.isSome = true) ∧
    (∀ s productsResp skuResp log s' log',
        (∀ p ∈ s.quantity, p.2.isSome = true) →
        loadProductsBody s productsResp skuResp log = (LoadOutcome.settled s', log') →
        ∀ p ∈ s'.quantity, p.2.isSome = true) ∧
    (∀ s products skuResp log s' log',
        loadProductsBody s (.ok products) skuResp log = (LoadOutcome.settled s', log') →
        ∀ pr ∈ products, alget s'.quantity pr.id = some (some 0)) ∧
    (∀ s d id resp s' d' reqs,
        (∀ p ∈ s.quantity, p.2.isSome = true) →
        updateQuantity s d id resp = some (s', d', reqs) →
        ∀ p ∈ s'.quantity, p.2.isSome = true) ∧
    (∀ s d id raw resp s' d' reqs,
        alget d.inputs ("quantity-input-" ++ id) = some raw →
        parseIntJS raw = none →
        updateQuantity s d id resp = some (s', d', reqs) →
        alget s'.quantity id = some (some 0)) := by
  refine ⟨?_, ?_, ?_, ?_, ?_⟩
  · intro p hp; simp [initStore] at hp
  · intro s productsResp skuResp log s' log' hinv h
    obtain ⟨products, hok, hne, hs'⟩ := loadProductsBody_settled h
    rw [hs']
    exact loadProductsLoop_quantity_isSome skuResp products s log hinv
  · intro s products skuResp log s' log' h pr hpr
    obtain ⟨products2, hok, hne, hs'⟩ := loadProductsBody_settled h
    obtain rfl : products = products2 := NetResponse.ok.inj hok
    rw [hs']
    exact loadProductsLoop_quantity_zero skuResp products s log pr.id
      (Or.inr (List.mem_map_of_mem _ hpr))
  · intro s d id resp s' d' reqs hinv h
    obtain ⟨raw, hval, hq⟩ := updateQuantity_quantity_eq h
    rw [hq]
    intro p hp
    rcases mem_alset hp with hp | hp
    · exact hinv p hp
    · rw [hp]; rfl
  · intro s d id raw resp s' d' reqs hin hraw h
    obtain ⟨raw2, hval, hq⟩ := updateQuantity_quantity_eq h
    obtain rfl : raw2 = raw := Option.some.inj (hval.symm.trans hin)
    rw [hq, hraw]
    exact alget_alset_self _ _ _

theorem quantity_map_integer_values_witness :
    (∀ p ∈ bootState.quantity, p.2.isSome = true) ∧
    (∀ pr ∈ oneProductCatalog, alget bootState.quantity pr.id = some (some 0)) ∧
    (∀ p ∈ nanState.quantity, p.2.isSome = true) ∧
    alget nanState.quantity "prod_1" = some (some 0) :=
  ⟨quantity_map_integer_values.2.1 { initStore with productsFetchPromise := some 0 }
      (.ok oneProductCatalog) (fun _ => .reject "unused") ⟨1, []⟩ bootState ⟨1, []⟩
      (by decide) (by decide),
   quantity_map_integer_values.2.2.1 { initStore with productsFetchPromise := some 0 }
      oneProductCatalog (fun _ => .reject "unused") ⟨1, []⟩ bootState ⟨1, []⟩ (by decide),
   quantity_map_integer_values.2.2.2.1 readyState domAbc "prod_1" (.reject "unused")
      nanState nanDom [] (by decide) (by decide),
   quantity_map_integer_values.2.2.2.2 readyState domAbc "prod_1" "abc" (.reject "unused")
      nanState nanDom [] (by decide) (by decide) (by decide)⟩


/-! ## C9: display consistency after a quantity edit -/

theorem rerenderTotal_inv {s : StoreState} {d : Dom} {cur : Option String}
    {d2 : Dom} {disp : String}
    (h : rerenderTotal s d cur = some (d2, disp)) :
    ∃ c t, cur = some c ∧ getPaymentTotal s = some t ∧
      disp = formatPrice (intOrZero t) c ∧
      d2 = { d with subtotalText := disp, totalText := disp } := by
  unfold rerenderTotal at h
  cases hgt : getPaymentTotal s with
  | none => rw [hgt] at h; simp at h
  | some t =>
      rw [hgt] at h
      simp only [Option.bind_eq_bind', Option.some_bind'] at h
      cases cur with
      | none => simp at h
      | some c =>
          simp only [Option.some_bind', Option.pure_def, Option.some.injEq,
            Prod.mk.injEq] at h
          obtain ⟨hd2, hdisp⟩ := h
          exact ⟨c, t, rfl, rfl, hdisp.symm, by rw [← hdisp]; exact hd2.symm⟩

theorem updateTotal_inv {s : StoreState} {d : Dom} {d' : Dom} {disp : String}
    (h : updateTotal s d = some (d', disp)) :
    ∃ c t, getPaymentTotal s = some t ∧
      disp = formatPrice (intOrZero t) c ∧
      d'.subtotalText = disp ∧ d'.totalText = disp ∧
      d'.buttonLabel = "Pay " ++ disp := by
  unfold updateTotal at h
  cases hup : updateItemPrices s s.products d none with
  | none => rw [hup] at h; simp at h
  | some pr =>
      obtain ⟨d1, cur⟩ := pr
      rw [hup] at h
      simp only [Option.bind_eq_bind', Option.some_bind'] at h
      cases hrr : rerenderTotal s d1 cur with
      | none => rw [hrr] at h; simp at h
      | some pr2 =>
          obtain ⟨d2, disp2⟩ := pr2
          rw [hrr] at h
          simp only [Option.some_bind', Option.pure_def, Option.some.injEq,
            Prod.mk.injEq] at h
          obtain ⟨hd', hdisp⟩ := h
          obtain ⟨c, t, hc, ht, hdisp2, hd2⟩ := rerenderTotal_inv hrr
          refine ⟨c, t, ht, ?_, ?_, ?_, ?_⟩
          · rw [← hdisp]; exact hdisp2
          · rw [← hd', hd2, ← hdisp]; rfl
          · rw [← hd', hd2, ← hdisp]; rfl
          · rw [← hd', ← hdisp]; rfl

/-- C9: whenever `updateQuantity` completes, the subtotal text, the total
text and the amount in the submit-button label all equal
`formatPrice` of `getPaymentTotal()` of the resulting state. -/
theorem updateQuantity_display_consistent (s : StoreState) (d : Dom)
    (id : String) (resp : NetResponse IntentData) (s' : StoreState) (d' : Dom)
    (reqs : List IntentRequest)
    (h : updateQuantity s d id resp = some (s', d', reqs)) :
    ∃ c t, getPaymentTotal s' = some t ∧
      d'.subtotalText = formatPrice (intOrZero t) c ∧
      d'.totalText = formatPrice (intOrZero t) c ∧
      d'.buttonLabel = "Pay " ++ formatPrice (intOrZero t) c := by
  obtain ⟨raw, cfg, disp, r, hval, hcfg, hut, hcp⟩ := updateQuantity_inv h
  obtain ⟨pi, hpi⟩ := createPaymentIntent_fst (midState s id raw) cfg.currency
    (getLineItems (midState s id raw)) resp
  have hs' : s' = { midState s id raw with paymentIntent := pi } := by
    rw [← hpi, hcp]
  obtain ⟨c, t, ht, hdisp, hsub, htot, hbut⟩ := updateTotal_inv hut
  have hgt : getPaymentTotal s' = some t := by
    rw [hs']
    exact (getPaymentTotal_set_paymentIntent _ _).trans ht
  exact ⟨c, t, hgt, hsub.trans hdisp, htot.trans hdisp,
    by rw [hbut, hdisp]⟩

theorem updateQuantity_display_consistent_witness :
    ∃ c t, getPaymentTotal chargedState = some t ∧
      chargedDom.subtotalText = formatPrice (intOrZero t) c ∧
      chargedDom.totalText = formatPrice (intOrZero t) c ∧
      chargedDom.buttonLabel = "Pay " ++ formatPrice (intOrZero t) c :=
  updateQuantity_display_consistent readyState dom3 "prod_1"
    (.ok ⟨some "pi_123", none⟩) chargedState chargedDom
    [.createIntent "usd" [⟨"sku", "sku_1", some 3⟩]] (by decide)

/-! ## C4 amended: degradation on network rejection -/

/-- C4 amended: on a rejected network call, the config fetch, the SKU load
and the two payment-intent operations each return `{error: message}` and no
exception escapes; charge creation also catches the rejection but returns
`undefined` (it only logs); and the catalog load catches nothing — its
promise never settles. -/
theorem network_reject_degrades :
    (∀ s d msg, (getConfig s d (.reject msg)).2.2 = OpReturn.errorObj msg) ∧
    (∀ s pid log msg,
        (loadSkus s pid (.reject msg) log).2.1 = OpReturn.errorObj msg) ∧
    (∀ s cur items msg, ¬ (items.all fun i => !jsTruthy i.quantity) = true →
        (createPaymentIntent s cur items (.reject msg)).2.1 =
          OpReturn.errorObj msg) ∧
    (∀ pi items so msg,
        (updatePaymentIntentWithShippingCost pi items so (.reject msg)).1 =
          OpReturn.errorObj msg) ∧
    (∀ s tok md msg r, createCharge s tok md (.reject msg) = some r →
        r.1 = OpReturn.undefined) ∧
    (∀ s skuResp log msg,
        (loadProductsBody s (.reject msg) skuResp log).1 =
          LoadOutcome.neverSettles) := by
  refine ⟨fun s d msg => rfl, fun s pid log msg => rfl, ?_,
    fun pi items so msg => rfl, ?_, fun s skuResp log msg => rfl⟩
  · intro s cur items msg hq
    simp [createPaymentIntent, hq]
  · intro s tok md msg r h
    unfold createCharge at h
    cases hgt : getPaymentTotal s with
    | none => rw [hgt] at h; exact absurd h (by simp)
    | some amount =>
        rw [hgt] at h
        cases hcfg : s.config with
        | none =>
            rw [hcfg] at h
            obtain rfl := Option.some.inj h
            rfl
        | some cfg =>
            rw [hcfg] at h
            obtain rfl := Option.some.inj h
            rfl

theorem network_reject_degrades_witness :
    (getConfig initStore emptyDom (.reject "boom")).2.2 =
      OpReturn.errorObj "boom" ∧
    (createPaymentIntent chargedState "usd" [⟨"sku", "sku_1", some 2⟩]
        (.reject "boom")).2.1 = OpReturn.errorObj "boom" ∧
    (OpReturn.undefined, [ChargeRequest.mk "tok" 3000 "usd" "md"]).1 =
      (OpReturn.undefined : OpReturn String) ∧
    (loadProductsBody initStore (.reject "boom") (fun _ => .reject "boom")
        ⟨1, []⟩).1 = LoadOutcome.neverSettles :=
  ⟨network_reject_degrades.1 initStore emptyDom "boom",
   network_reject_degrades.2.2.1 chargedState "usd" [⟨"sku", "sku_1", some 2⟩]
     "boom" (by decide),
   network_reject_degrades.2.2.2.2.1 chargedState "tok" "md" "boom"
     (OpReturn.undefined, [ChargeRequest.mk "tok" 3000 "usd" "md"]) (by decide),
   network_reject_degrades.2.2.2.2.2 initStore (fun _ => .reject "boom")
     ⟨1, []⟩ "boom"⟩

end StoreJs
